import Mathlib

/-!
# Verification of the `TVConnection` core (LG webOS remote)

Shallow embedding of `src/tv-connection.ts` (the `TVConnection` class) and the
parts of `src/server.ts` the claims touch.  JavaScript objects parsed from
JSON are modelled by the `JVal` type; the class's mutable fields become the
`TVState` structure, and each method becomes a pure function from state to
state together with a list of observable effects (`Emit`): status-change
notifications, promise resolutions/rejections, and persisted-config writes.

The event-driven message/timeout processing of the main WebSocket is modelled
as a step machine over `MainEvent`s (`handleMainMessage`, the `setTimeout`
callbacks of `sendMain` and `register`).

One modelling device: JavaScript closures created by `sendMain` are
distinguished by a ghost counter `tokCounter` (the token of a resolver
closure); it does not change any observable behaviour, it only names which
resolver closure an emission belongs to, exactly as object identity does in
the source.
-/

/-- A JSON value as it appears in a parsed LG response payload field.
`other` stands for arrays/objects (which are always truthy in JS). -/
inductive JVal
  | str (s : String)
  | num (q : ℚ)
  | bool (b : Bool)
  | null
  | other
deriving DecidableEq, Repr

/-- JavaScript truthiness of an optional payload field
(`undefined`, `null`, `""`, `0` and `false` are falsy). -/
def jsTruthy : Option JVal → Bool
  | none => false
  | some (.str s) => !(s = "")
  | some (.num q) => !(q = 0)
  | some (.bool b) => b
  | some .null => false
  | some .other => true

/-- `TVConnectionStatus` from `src/types.ts` (values used by the source). -/
inductive TVConnectionStatus
  | disconnected
  | connecting
  | pairing
  | ready
deriving DecidableEq, Repr

/-- WebSocket ready states (`WebSocket.CONNECTING/OPEN/CLOSING/CLOSED`). -/
inductive WsReadyState
  | CONNECTING
  | OPEN
  | CLOSING
  | CLOSED
deriving DecidableEq, Repr

/-- `TVConfig` from `src/types.ts`: the persisted `tv_config.json` record. -/
structure TVConfig where
  tvIp : String
  clientKey : String
deriving DecidableEq, Repr

/-- The fields of an LG response payload that the source inspects.
`none` means the JSON property is absent; `some v` means it is present with
value `v` (possibly `JVal.null`). -/
structure LGPayload where
  clientKey : Option JVal := none
  appId : Option JVal := none
  volume : Option JVal := none
  muted : Option JVal := none
deriving DecidableEq, Repr

/-- `LGResponse` from `src/types.ts` as used by the source:
`{ id, type, error?, payload? }`. -/
structure LGResponse where
  id : String
  type : String
  error : Option String := none
  payload : Option LGPayload := none
deriving DecidableEq, Repr

/-- A pending-request handler stored in `pendingRequests`.  The source stores
closures; we tag them by their origin.  A `sendMain` resolver additionally
carries its ghost closure token. -/
inductive Handler
  | sendResolver (tok : Nat)
  | regHandler
  | fgSub
  | volSub
deriving DecidableEq, Repr

/-- `TVStatus` from `src/types.ts`: the snapshot produced by `getStatus`. -/
structure TVStatus where
  status : TVConnectionStatus
  tvIp : Option String
  currentApp : Option JVal
  volume : Option JVal
  muted : Option JVal
deriving DecidableEq, Repr

/-- Observable effects of a method call: status notifications (the
`onStatusChange` callback), `sendMain` promise settlements, config writes
(`saveConfig`; the Bool records the discarded success of the write),
`register` promise settlements and the fire-and-forget pointer-socket
setup. -/
inductive Emit
  | notify (st : TVStatus)
  | resolveSend (tok : Nat) (resp : LGResponse)
  | rejectSend (tok : Nat) (msg : String)
  | persist (cfg : TVConfig) (ok : Bool)
  | regResolve
  | regReject (msg : String)
  | startAux
deriving DecidableEq, Repr

/-- The mutable fields of a `TVConnection` instance (lines 9-21).
`tokCounter` is the ghost counter naming resolver closures. -/
structure TVState where
  mainWs : Option WsReadyState
  pointerWs : Option WsReadyState
  status : TVConnectionStatus
  tvIp : Option String
  clientKey : Option String
  msgId : Nat
  pendingRequests : String → Option Handler
  subscriptionIds : String → Bool
  registrationRequestId : Option String
  currentApp : Option JVal
  volume : Option JVal
  muted : Option JVal
  tokCounter : Nat

/-- Field initializers of the class (lines 9-21). -/
def initState : TVState where
  mainWs := none
  pointerWs := none
  status := .disconnected
  tvIp := none
  clientKey := none
  msgId := 0
  pendingRequests := fun _ => none
  subscriptionIds := fun _ => false
  registrationRequestId := none
  currentApp := none
  volume := none
  muted := none
  tokCounter := 0

/-- `Map.set` on the pending-request map. -/
def mapSet (m : String → Option Handler) (k : String) (v : Handler) :
    String → Option Handler :=
  fun i => if i = k then some v else m i

/-- `Map.delete` on the pending-request map. -/
def mapDel (m : String → Option Handler) (k : String) :
    String → Option Handler :=
  fun i => if i = k then none else m i

/-- `Set.add` on `subscriptionIds`. -/
def subAdd (m : String → Bool) (k : String) : String → Bool :=
  fun i => if i = k then true else m i

/-- `getStatus()` (lines 27-35). -/
def getStatus (s : TVState) : TVStatus where
  status := s.status
  tvIp := s.tvIp
  currentApp := s.currentApp
  volume := s.volume
  muted := s.muted

/-- `setStatus(s)` (lines 37-40): store the new status and invoke the
status-change callback with a fresh snapshot. -/
def setStatus (s : TVState) (st : TVConnectionStatus) : TVState × List Emit :=
  let s' := { s with status := st }
  (s', [.notify (getStatus s')])

/-- `disconnect()` (lines 369-381), in source order: close and null both
sockets, `setStatus("disconnected")` (which notifies), then clear the status
fields, both maps and the registration id.  `tvIp`, `clientKey` and `msgId`
are not touched. -/
def disconnect (s : TVState) : TVState × List Emit :=
  let s1 := { s with mainWs := none, pointerWs := none }
  let (s2, em) := setStatus s1 .disconnected
  let s3 := { s2 with
    currentApp := none
    volume := none
    muted := none
    pendingRequests := fun _ => none
    subscriptionIds := fun _ => false
    registrationRequestId := none }
  (s3, em)

/-- C8: `disconnect()` is idempotent: a second call throws no error (it is a
total function) and yields exactly the same observable state — status
`disconnected`, empty pending map, empty subscription set, null transports,
cleared app/volume/muted — as the first call. -/
theorem disconnect_idempotent (s : TVState) :
    (disconnect (disconnect s).1).1 = (disconnect s).1
    ∧ (disconnect s).1.status = .disconnected
    ∧ (∀ i, (disconnect s).1.pendingRequests i = none)
    ∧ (∀ i, (disconnect s).1.subscriptionIds i = false)
    ∧ (disconnect s).1.mainWs = none
    ∧ (disconnect s).1.pointerWs = none
    ∧ (disconnect s).1.currentApp = none
    ∧ (disconnect s).1.volume = none
    ∧ (disconnect s).1.muted = none
    ∧ (disconnect s).1.registrationRequestId = none := by
  refine ⟨rfl, rfl, fun i => rfl, fun i => rfl, rfl, rfl, rfl, rfl, rfl, rfl⟩

/-- C10: the notification emitted by `disconnect()` fires from
`setStatus("disconnected")` before the status fields are cleared, so its
snapshot has status `disconnected` but still carries the prior session's
`currentApp`, `volume` and `muted`; `tvIp` is never reset by `disconnect`,
so `getStatus()` afterwards still reports the last connected address. -/
theorem disconnect_notification_snapshot (s : TVState) :
    (disconnect s).2 =
      [.notify { status := .disconnected, tvIp := s.tvIp,
                 currentApp := s.currentApp, volume := s.volume,
                 muted := s.muted }]
    ∧ (disconnect s).1.tvIp = s.tvIp
    ∧ getStatus (disconnect s).1 =
      { status := .disconnected, tvIp := s.tvIp,
        currentApp := none, volume := none, muted := none } := by
  exact ⟨rfl, rfl, rfl⟩

/-! ## Credential loading and the handshake payload (C1) -/

/-- Lines 85-88 of `connect(ip)`: the loaded config's key is applied only
when its stored address equals the address being connected to; otherwise the
in-memory `clientKey` is left as it is. -/
def applyConfig (key : Option String) (config : Option TVConfig) (ip : String) :
    Option String :=
  match config with
  | some c => if c.tvIp = ip then some c.clientKey else key
  | none => key

/-- Lines 174-177 of `register()`: `if (this.clientKey)
payload["client-key"] = this.clientKey` — the credential is attached to the
handshake payload exactly when it is truthy (non-null and non-empty). -/
def truthyKey : Option String → Option String
  | some k => if k = "" then none else some k
  | none => none

/-- Lines 79-88 of `connect(ip)` up to the candidate loop: disconnect any
previous session, record the address, notify `connecting`, then apply the
loaded config (`loadConfig` is the store collaborator, passed in as
`config`). -/
def connectPrep (config : Option TVConfig) (s : TVState) (ip : String) :
    TVState × List Emit :=
  let (s0, em0) := if s.mainWs.isSome then disconnect s else (s, [])
  let s1 := { s0 with tvIp := some ip }
  let (s2, em2) := setStatus s1 .connecting
  let s3 := { s2 with clientKey := applyConfig s2.clientKey config ip }
  (s3, em0 ++ em2)

/-- The key the subsequent `register()` call attaches, after `connect(ip)`
has applied the persisted config. -/
def connectHandshakeKey (key : Option String) (config : Option TVConfig)
    (ip : String) : Option String :=
  truthyKey (applyConfig key config ip)

/-- State of a process that paired with address "A" in an earlier session of
the same process: the key is still held in memory. -/
def c1State : TVState := { initState with clientKey := some "oldkey" }

/-- C1 counterexample: with a persisted credential for address "A" and a
credential still in memory from an earlier session, `connect("B")` leaves
the in-memory key in place and `register()` attaches it to the handshake
payload — the claim says no credential is attached. -/
theorem connect_other_address_attaches_stale_key :
    (connectPrep (some ⟨"A", "keyA"⟩) c1State "B").1.clientKey = some "oldkey"
    ∧ truthyKey (connectPrep (some ⟨"A", "keyA"⟩) c1State "B").1.clientKey
        = some "oldkey"
    ∧ c1State.mainWs = none := by
  exact ⟨rfl, rfl, rfl⟩

/-- C1 (amended): `connect(ip)` sets `clientKey` to the persisted credential
exactly when the persisted address matches `ip`; otherwise the previously
held in-memory credential is retained (and attached by `register()` when it
is non-empty); with no config and no in-memory credential nothing is
attached. -/
theorem connect_credential_amended (key : Option String) (c : TVConfig)
    (cfg : Option TVConfig) (ip : String) (s : TVState) :
    (cfg = some c → c.tvIp = ip → applyConfig key cfg ip = some c.clientKey)
    ∧ (cfg = some c → c.tvIp ≠ ip → applyConfig key cfg ip = key)
    ∧ applyConfig key none ip = key
    ∧ connectHandshakeKey none none ip = none
    ∧ (connectPrep cfg s ip).1.clientKey = applyConfig s.clientKey cfg ip := by
  refine ⟨?_, ?_, rfl, rfl, ?_⟩
  · rintro rfl h
    simp [applyConfig, h]
  · rintro rfl h
    simp [applyConfig, h]
  · unfold connectPrep
    by_cases h : s.mainWs.isSome <;> simp [h, disconnect, setStatus]

/-- Witness for `connect_credential_amended` at a concrete input. -/
theorem connect_credential_amended_witness :
    applyConfig (some "mem") (some ⟨"A", "keyA"⟩) "A" = some "keyA"
    ∧ applyConfig (some "mem") (some ⟨"A", "keyA"⟩) "B" = some "mem" := by
  refine ⟨?_, ?_⟩
  · exact (connect_credential_amended (some "mem") ⟨"A", "keyA"⟩
      (some ⟨"A", "keyA"⟩) "A" initState).1 rfl rfl
  · exact (connect_credential_amended (some "mem") ⟨"A", "keyA"⟩
      (some ⟨"A", "keyA"⟩) "B" initState).2.1 rfl (by decide)

/-! ## The transport-candidate loop (C4) -/

/-- Line 90: the three candidate endpoints tried in order. -/
def wsUrls (ip : String) : List String :=
  ["wss://" ++ ip ++ ":3001", "wss://" ++ ip ++ ":3000", "ws://" ++ ip ++ ":3000"]

/-- Outcome of one `connectWebSocket` attempt (transport + full handshake),
abstracted as an oracle: the attempt either resolves or rejects with a
message. -/
inductive AttemptResult
  | ok
  | fail (msg : String)
deriving DecidableEq, Repr

/-- Lines 93-111 of `connect(ip)`: try each candidate in order, notifying
`connecting` each round; on failure null both sockets and record
`` `${wsUrl} -> ${message}` ``; when every candidate has failed, notify
`disconnected` and throw the single aggregated error.  The error value
carries both the accumulated entry list and the thrown message. -/
def connectLoop (attempt : String → AttemptResult) :
    TVState → List String → List String →
    TVState × List Emit × Except (List String × String) Unit
  | s, errs, [] =>
    let (s1, em1) := setStatus s .disconnected
    (s1, em1, .error (errs,
      "Failed to connect to TV. Attempts: " ++ String.intercalate " | " errs))
  | s, errs, url :: rest =>
    let (s1, em1) := setStatus s .connecting
    match attempt url with
    | .ok => (s1, em1, .ok ())
    | .fail m =>
      let s2 := { s1 with mainWs := none, pointerWs := none }
      let (s3, em3, r) := connectLoop attempt s2 (errs ++ [url ++ " -> " ++ m]) rest
      (s3, em1 ++ em3, r)

/-- C4: when all three candidate endpoints fail, `connect` rejects with a
single aggregated error listing exactly three entries — one per attempted
endpoint with its failure reason — and the session state is `disconnected`
at that point. -/
theorem connect_all_fail_aggregate (s : TVState) (ip : String)
    (attempt : String → AttemptResult) (r1 r2 r3 : String)
    (h1 : attempt ("wss://" ++ ip ++ ":3001") = .fail r1)
    (h2 : attempt ("wss://" ++ ip ++ ":3000") = .fail r2)
    (h3 : attempt ("ws://" ++ ip ++ ":3000") = .fail r3) :
    (connectLoop attempt s [] (wsUrls ip)).2.2 =
      .error (["wss://" ++ ip ++ ":3001" ++ " -> " ++ r1,
               "wss://" ++ ip ++ ":3000" ++ " -> " ++ r2,
               "ws://" ++ ip ++ ":3000" ++ " -> " ++ r3],
        "Failed to connect to TV. Attempts: " ++ String.intercalate " | "
          ["wss://" ++ ip ++ ":3001" ++ " -> " ++ r1,
           "wss://" ++ ip ++ ":3000" ++ " -> " ++ r2,
           "ws://" ++ ip ++ ":3000" ++ " -> " ++ r3])
    ∧ (["wss://" ++ ip ++ ":3001" ++ " -> " ++ r1,
        "wss://" ++ ip ++ ":3000" ++ " -> " ++ r2,
        "ws://" ++ ip ++ ":3000" ++ " -> " ++ r3] : List String).length = 3
    ∧ (connectLoop attempt s [] (wsUrls ip)).1.status = .disconnected
    ∧ (wsUrls ip).length = 3 := by
  simp [wsUrls, connectLoop, h1, h2, h3, setStatus, String.intercalate]

/-- Witness for `connect_all_fail_aggregate` at a concrete input. -/
theorem connect_all_fail_aggregate_witness :
    (connectLoop (fun _ => .fail "refused") initState []
        (wsUrls "10.0.0.5")).1.status = .disconnected := by
  exact (connect_all_fail_aggregate initState "10.0.0.5"
    (fun _ => .fail "refused") "refused" "refused" "refused"
    rfl rfl rfl).2.2.1

/-! ## Pointer motion frames (C9) -/

/-- `Math.round(x)`: round half toward positive infinity.  Fractional inputs
are modelled as rationals. -/
def jsRound (q : ℚ) : Int := Int.floor (q + 1/2)

/-- `Buffer.prototype.writeInt16LE(n)`: validates that `n` fits a signed
16-bit integer (throwing `ERR_OUT_OF_RANGE` otherwise) and writes the two's
complement little-endian byte pair (low byte, high byte). -/
def writeInt16LE (n : Int) : Except String (Nat × Nat) :=
  if n < -32768 ∨ 32767 < n then .error "ERR_OUT_OF_RANGE"
  else
    let u := (n % 65536).toNat
    .ok (u % 256, u / 256)

/-- Result of `moveMouse`: silently dropped, one binary frame sent, or a
thrown range error. -/
inductive PtrSendResult
  | noop
  | sent (frame : List Nat)
  | thrown (msg : String)
deriving DecidableEq, Repr

/-- `moveMouse(dx, dy)` (lines 331-339): no-op unless the pointer socket is
open; otherwise build the 6-byte frame `[1, 0, dxLo, dxHi, dyLo, dyHi]` with
`writeInt16LE(Math.round(dx), 2)` then `writeInt16LE(Math.round(dy), 4)` and
send it. -/
def moveMouse (s : TVState) (dx dy : ℚ) : PtrSendResult :=
  if s.pointerWs ≠ some .OPEN then .noop
  else
    match writeInt16LE (jsRound dx) with
    | .error m => .thrown m
    | .ok (a, b) =>
      match writeInt16LE (jsRound dy) with
      | .error m => .thrown m
      | .ok (c, d) => .sent [1, 0, a, b, c, d]

/-- A state whose pointer channel is open. -/
def ptrOpenState : TVState :=
  { initState with pointerWs := some .OPEN, mainWs := some .OPEN }

/-- C9 counterexample: with the pointer channel open, `moveMouse(40000, 0)`
does not send a frame at all — `writeInt16LE` throws `ERR_OUT_OF_RANGE`
because 40000 has no signed 16-bit encoding — contradicting the claim that a
frame is sent for every real `dx`, `dy`. -/
theorem moveMouse_out_of_range_throws :
    moveMouse ptrOpenState 40000 0 = .thrown "ERR_OUT_OF_RANGE" := by
  have h : jsRound 40000 = 40000 := by norm_num [jsRound]
  simp [moveMouse, ptrOpenState, initState, writeInt16LE, h]

/-- C9 (amended): `moveMouse` with the channel absent or not open is a no-op
surfacing no error; when the channel is open and both rounded deltas fit a
signed 16-bit integer, it sends exactly one 6-byte frame beginning with
bytes 1, 0 whose byte pairs at offsets 2-3 and 4-5 are the little-endian
two's-complement encodings of `Math.round(dx)` and `Math.round(dy)`;
a rounded delta outside [-32768, 32767] throws a range error instead. -/
theorem moveMouse_frame (s : TVState) (dx dy : ℚ) :
    (s.pointerWs ≠ some .OPEN → moveMouse s dx dy = .noop)
    ∧ (s.pointerWs = some .OPEN →
       -32768 ≤ jsRound dx → jsRound dx ≤ 32767 →
       -32768 ≤ jsRound dy → jsRound dy ≤ 32767 →
       ∃ a b c d : Nat,
         moveMouse s dx dy = .sent [1, 0, a, b, c, d]
         ∧ a + 256 * b = ((jsRound dx) % 65536).toNat
         ∧ c + 256 * d = ((jsRound dy) % 65536).toNat
         ∧ a < 256 ∧ b < 256 ∧ c < 256 ∧ d < 256) := by
  constructor
  · intro h
    simp [moveMouse, h]
  · intro hws hx1 hx2 hy1 hy2
    have hxe : writeInt16LE (jsRound dx) =
        .ok (((jsRound dx) % 65536).toNat % 256,
             ((jsRound dx) % 65536).toNat / 256) := by
      unfold writeInt16LE
      rw [if_neg]
      omega
    have hye : writeInt16LE (jsRound dy) =
        .ok (((jsRound dy) % 65536).toNat % 256,
             ((jsRound dy) % 65536).toNat / 256) := by
      unfold writeInt16LE
      rw [if_neg]
      omega
    have hub : ∀ n : Int, (n % 65536).toNat < 65536 := by
      intro n
      have h1 : 0 ≤ n % 65536 := Int.emod_nonneg n (by norm_num)
      have h2 : n % 65536 < 65536 := Int.emod_lt_of_pos n (by norm_num)
      omega
    refine ⟨((jsRound dx) % 65536).toNat % 256, ((jsRound dx) % 65536).toNat / 256,
        ((jsRound dy) % 65536).toNat % 256, ((jsRound dy) % 65536).toNat / 256,
        ?_, ?_, ?_, ?_, ?_, ?_, ?_⟩
    · simp [moveMouse, hws, hxe, hye]
    · exact Nat.mod_add_div _ _
    · exact Nat.mod_add_div _ _
    · exact Nat.mod_lt _ (by norm_num)
    · have := hub (jsRound dx)
      omega
    · exact Nat.mod_lt _ (by norm_num)
    · have := hub (jsRound dy)
      omega

/-- Witness for `moveMouse_frame`: `dx = 3.5`, `dy = -2.5`; Math.round gives
4 and -2, encoded as bytes (4, 0) and (254, 255). -/
theorem moveMouse_frame_witness :
    moveMouse ptrOpenState (7/2) (-5/2) = .sent [1, 0, 4, 0, 254, 255] := by
  have hx : jsRound (7/2) = 4 := by norm_num [jsRound]
  have hy : jsRound (-5/2) = -2 := by norm_num [jsRound]
  obtain ⟨a, b, c, d, hs, ha, hc, ha2, hb, hc2, hd⟩ :=
    (moveMouse_frame ptrOpenState (7/2) (-5/2)).2 rfl
      (by rw [hx]; norm_num) (by rw [hx]; norm_num)
      (by rw [hy]; norm_num) (by rw [hy]; norm_num)
  rw [hx] at ha
  rw [hy] at hc
  have hA : ((4 : Int) % 65536).toNat = 4 := by decide
  have hC : ((-2 : Int) % 65536).toNat = 65534 := by decide
  rw [hA] at ha
  rw [hC] at hc
  have h1 : a = 4 := by omega
  subst h1
  have h2 : b = 0 := by omega
  subst h2
  have h3 : c = 254 := by omega
  subst h3
  have h4 : d = 255 := by omega
  subst h4
  exact hs

/-! ## The request/response machinery -/

/-- `nextId()` (lines 57-59): ids are `` `msg_${++msgId}` ``. -/
def mkMsgId (n : Nat) : String := "msg_" ++ toString n

/-- The fixed per-request timeout of `sendMain` (line 75). -/
def SEND_TIMEOUT_MS : Nat := 10000

/-- The pairing timeout of `register` (line 218). -/
def REGISTER_TIMEOUT_MS : Nat := 30000

/-- `saveConfig()` (lines 51-55): the write is skipped unless both `tvIp`
and `clientKey` are truthy; otherwise `{tvIp, clientKey}` is written. -/
def saveWrite (tvIp clientKey : Option String) : Option TVConfig :=
  match tvIp, clientKey with
  | some ip, some k => if ip = "" ∨ k = "" then none else some ⟨ip, k⟩
  | _, _ => none

/-- `resp.payload?.["client-key"]` when it is a non-empty string
(`typeof returnedClientKey === "string" && returnedClientKey.length > 0`,
lines 185-190). -/
def keyStrOf (resp : LGResponse) : Option String :=
  match resp.payload.bind LGPayload.clientKey with
  | some (.str k) => if k = "" then none else some k
  | _ => none

/-- The success condition of the `register` response handler (lines
186-189): `type === "registered"` or a `response` carrying a non-empty
string client-key. -/
def regSuccess (resp : LGResponse) : Bool :=
  resp.type = "registered" ∨ (resp.type = "response" ∧ (keyStrOf resp).isSome)

/-- `registrationDone` in `handleMainMessage` (lines 229-231): note that
here ANY string client-key counts, even the empty one. -/
def regDoneOf (resp : LGResponse) : Bool :=
  decide (resp.type = "registered") || decide (resp.type = "error") ||
  (match resp.payload.bind LGPayload.clientKey with
   | some (.str _) => true
   | _ => false)

/-- `(resp.payload.muted as boolean) ?? this.muted` (lines 251, 317):
nullish coalescing keeps the old value for an absent or null field. -/
def nullishUpdate (old new? : Option JVal) : Option JVal :=
  match new? with
  | none => old
  | some .null => old
  | some v => some v

/-- The synchronous prefix of `setupPointerSocket()` (lines 260-266): the
`sendMain` call registers a fresh resolver and schedules its timeout; the
rest of the method runs only after the TV answers.  If the main socket is
not open, `sendMain` rejects immediately and the rejection is swallowed by
the surrounding try/catch, registering nothing. -/
def setupPointerSkt (s : TVState) : TVState :=
  if s.mainWs = some .OPEN then
    { s with
      msgId := s.msgId + 1
      tokCounter := s.tokCounter + 1
      pendingRequests :=
        mapSet s.pendingRequests (mkMsgId (s.msgId + 1))
          (.sendResolver (s.tokCounter + 1)) }
  else s

/-- `subscribeToStatus()` (lines 296-329): register the foreground-app
subscription (durable handler) and send it, then the volume subscription.
`mainWs!.send` throws only when `mainWs` is null; the throw is caught by the
method's try/catch, so in that case the volume subscription is never
registered. -/
def subscribeToStatus (s : TVState) : TVState :=
  let fgId := mkMsgId (s.msgId + 1)
  let s1 := { s with
    msgId := s.msgId + 1
    subscriptionIds := subAdd s.subscriptionIds fgId
    pendingRequests := mapSet s.pendingRequests fgId .fgSub }
  if s1.mainWs.isNone then s1
  else
    let volId := mkMsgId (s1.msgId + 1)
    { s1 with
      msgId := s1.msgId + 1
      subscriptionIds := subAdd s1.subscriptionIds volId
      pendingRequests := mapSet s1.pendingRequests volId .volSub }

/-- Lines 190-192: update `clientKey` when the response returned a
non-empty string key. -/
def keyUpdState (s : TVState) (resp : LGResponse) : TVState :=
  match keyStrOf resp with
  | some k => { s with clientKey := some k }
  | none => s

/-- The emission of the best-effort `saveConfig().catch(() => {})` call
(line 193): a write happens only when `saveConfig` does not bail out, and
its outcome `saveOk` is discarded. -/
def persistEmits (saveOk : Bool) (s1 : TVState) : List Emit :=
  match saveWrite s1.tvIp s1.clientKey with
  | some cfg => [.persist cfg saveOk]
  | none => []

/-- `resp.error || "Registration failed"` (line 200). -/
def regErrMsg (resp : LGResponse) : String :=
  match resp.error with
  | some e => if e = "" then "Registration failed" else e
  | none => "Registration failed"

/-- The response handler installed by `register()` (lines 184-202).  On
success: update `clientKey` when a non-empty key was returned, fire the
best-effort `saveConfig().catch(() => {})` (its outcome `saveOk` is
discarded), `setStatus("ready")`, fire-and-forget `setupPointerSocket()`,
`subscribeToStatus()`, and resolve.  On `type === "error"`:
`setStatus("disconnected")` and reject with `resp.error ||
"Registration failed"`.  Any other response is ignored. -/
def registerHandle (saveOk : Bool) (s : TVState) (resp : LGResponse) :
    TVState × List Emit :=
  if regSuccess resp then
    (subscribeToStatus (setupPointerSkt { keyUpdState s resp with status := .ready }),
     persistEmits saveOk (keyUpdState s resp)
       ++ [.notify (getStatus { keyUpdState s resp with status := .ready }),
           .startAux, .regResolve])
  else if resp.type = "error" then
    ({ s with status := .disconnected },
     [.notify (getStatus { s with status := .disconnected }),
      .regReject (regErrMsg resp)])
  else (s, [])

/-- Invoke a stored pending-request handler on a response. -/
def runHandler (saveOk : Bool) (h : Handler) (s : TVState) (resp : LGResponse) :
    TVState × List Emit :=
  match h with
  | .sendResolver tok => (s, [.resolveSend tok resp])
  | .regHandler => registerHandle saveOk s resp
  | .fgSub =>
    if jsTruthy (resp.payload.bind LGPayload.appId) then
      let s' := { s with currentApp := resp.payload.bind LGPayload.appId }
      (s', [.notify (getStatus s')])
    else (s, [])
  | .volSub =>
    match resp.payload with
    | some p =>
      if p.volume.isSome then
        let s' := { s with volume := p.volume,
                           muted := nullishUpdate s.muted p.muted }
        (s', [.notify (getStatus s')])
      else (s, [])
    | none => (s, [])

/-- The unsolicited-message branch of `handleMainMessage` (lines 244-254):
update `currentApp` whenever `appId` is present, `volume`/`muted` whenever
`volume` is present, notifying for each field that was present. -/
def unsolicited (s : TVState) (resp : LGResponse) : TVState × List Emit :=
  match resp.payload with
  | none => (s, [])
  | some p =>
    let r1 :=
      if p.appId.isSome then
        let s' := { s with currentApp := p.appId }
        (s', [Emit.notify (getStatus s')])
      else (s, ([] : List Emit))
    let r2 :=
      if p.volume.isSome then
        let s' := { r1.1 with volume := p.volume,
                              muted := nullishUpdate r1.1.muted p.muted }
        (s', [Emit.notify (getStatus s')])
      else (r1.1, ([] : List Emit))
    (r2.1, r1.2 ++ r2.2)

/-- `handleMainMessage` (lines 222-258) on an already-parsed message (a
parse failure is caught and does nothing).  If a handler is pending for the
id: remove it unless the id is a subscription or the in-flight registration
whose response does not complete registration, then invoke it.  Otherwise
fall through to the unsolicited-status branch. -/
def handleMainMessage (saveOk : Bool) (s : TVState) (resp : LGResponse) :
    TVState × List Emit :=
  match s.pendingRequests resp.id with
  | some h =>
    let s1 :=
      if s.subscriptionIds resp.id = false
          ∧ s.registrationRequestId ≠ some resp.id then
        { s with pendingRequests := mapDel s.pendingRequests resp.id }
      else if s.registrationRequestId = some resp.id ∧ regDoneOf resp = true then
        { s with pendingRequests := mapDel s.pendingRequests resp.id,
                 registrationRequestId := none }
      else s
    runHandler saveOk h s1 resp
  | none => unsolicited s resp

/-- `sendMain(msg)` (lines 61-77): reject immediately unless the main socket
is open; otherwise take `msg.id` if truthy, else `nextId()`, store the
(fresh) resolver under the id, transmit, and schedule the
`SEND_TIMEOUT_MS` timeout.  Returns the id and the resolver's ghost
token. -/
def sendMain (s : TVState) (suppliedId : Option String) :
    TVState × Except String (String × Nat) :=
  if s.mainWs ≠ some .OPEN then (s, .error "Main WebSocket not connected")
  else
    let idAndState : String × TVState :=
      match suppliedId with
      | some i => if i = "" then (mkMsgId (s.msgId + 1), { s with msgId := s.msgId + 1 })
                  else (i, s)
      | none => (mkMsgId (s.msgId + 1), { s with msgId := s.msgId + 1 })
    let id := idAndState.1
    let s1 := idAndState.2
    let tok := s1.tokCounter + 1
    ({ s1 with
        tokCounter := tok
        pendingRequests := mapSet s1.pendingRequests id (.sendResolver tok) },
     .ok (id, tok))

/-- Events processed by the main channel: an incoming message, the firing of
a `sendMain` timeout (the closure captured its request's id and resolver),
and the firing of the `register` timeout. -/
inductive MainEvent
  | msg (resp : LGResponse)
  | sendTimeout (id : String) (tok : Nat)
  | regTimeout (id : String)

/-- One step of the main-channel event loop: `handleMainMessage`, the
`sendMain` timeout callback (lines 70-75: reject only if the id is still
pending, removing the entry), or the `register` timeout callback (lines
212-218). -/
def runEvent (saveOk : Bool) (s : TVState) (e : MainEvent) : TVState × List Emit :=
  match e with
  | .msg resp => handleMainMessage saveOk s resp
  | .sendTimeout id tok =>
    if (s.pendingRequests id).isSome then
      ({ s with pendingRequests := mapDel s.pendingRequests id },
       [.rejectSend tok ("Request " ++ id ++ " timed out")])
    else (s, [])
  | .regTimeout id =>
    if (s.pendingRequests id).isSome then
      ({ s with pendingRequests := mapDel s.pendingRequests id,
                registrationRequestId := none },
       [.regReject "Registration timed out - check TV for pairing prompt"])
    else (s, [])

/-- Run a sequence of main-channel events, collecting every emission. -/
def runTrace (saveOk : Bool) (s : TVState) : List MainEvent → TVState × List Emit
  | [] => (s, [])
  | e :: tr =>
    let r1 := runEvent saveOk s e
    let r2 := runTrace saveOk r1.1 tr
    (r2.1, r1.2 ++ r2.2)

/-- Recognizer for an invocation of the `sendMain` resolver with ghost
token `tok`. -/
def isResolveTok (tok : Nat) : Emit → Bool
  | .resolveSend t _ => t = tok
  | _ => false

/-- How many times the resolver with ghost token `tok` was invoked. -/
def resCount (tok : Nat) (em : List Emit) : Nat := em.countP (isResolveTok tok)

/-! ## Registration handshake (C3, C7) -/

theorem subscribeToStatus_fields (s : TVState) :
    (subscribeToStatus s).status = s.status
    ∧ (subscribeToStatus s).clientKey = s.clientKey
    ∧ (subscribeToStatus s).registrationRequestId = s.registrationRequestId
    ∧ (subscribeToStatus s).tokCounter = s.tokCounter
    ∧ (subscribeToStatus s).mainWs = s.mainWs := by
  unfold subscribeToStatus
  dsimp only
  by_cases h : s.mainWs.isNone <;> simp [h]

theorem setupPointerSkt_fields (s : TVState) :
    (setupPointerSkt s).status = s.status
    ∧ (setupPointerSkt s).clientKey = s.clientKey
    ∧ (setupPointerSkt s).registrationRequestId = s.registrationRequestId
    ∧ (setupPointerSkt s).subscriptionIds = s.subscriptionIds
    ∧ (setupPointerSkt s).mainWs = s.mainWs
    ∧ s.tokCounter ≤ (setupPointerSkt s).tokCounter := by
  unfold setupPointerSkt
  split
  · exact ⟨rfl, rfl, rfl, rfl, rfl, Nat.le_succ _⟩
  · exact ⟨rfl, rfl, rfl, rfl, rfl, Nat.le_refl _⟩

theorem postReady_status (t : TVState) :
    (subscribeToStatus (setupPointerSkt t)).status = t.status := by
  rw [(subscribeToStatus_fields (setupPointerSkt t)).1, (setupPointerSkt_fields t).1]

theorem postReady_clientKey (t : TVState) :
    (subscribeToStatus (setupPointerSkt t)).clientKey = t.clientKey := by
  rw [(subscribeToStatus_fields (setupPointerSkt t)).2.1, (setupPointerSkt_fields t).2.1]

theorem keyUpdState_clientKey (s : TVState) (resp : LGResponse) (k : String)
    (hk : keyStrOf resp = some k) : (keyUpdState s resp).clientKey = some k := by
  unfold keyUpdState
  rw [hk]

theorem keyUpdState_of_none (s : TVState) (resp : LGResponse)
    (hk : keyStrOf resp = none) : keyUpdState s resp = s := by
  unfold keyUpdState
  rw [hk]

theorem saveWrite_some (a b : Option String) (cfg : TVConfig)
    (h : saveWrite a b = some cfg) : cfg.tvIp ≠ "" ∧ cfg.clientKey ≠ "" := by
  unfold saveWrite at h
  rcases a with _ | ip <;> rcases b with _ | k
  · simp at h
  · simp at h
  · simp at h
  · dsimp only at h
    by_cases he : ip = "" ∨ k = ""
    · rw [if_pos he] at h
      simp at h
    · rw [if_neg he] at h
      simp only [Option.some.injEq] at h
      push_neg at he
      rw [← h]
      exact ⟨he.1, he.2⟩

theorem saveWrite_none_key (a : Option String) : saveWrite a none = none := by
  unfold saveWrite
  cases a <;> rfl

theorem persistEmits_mem (saveOk : Bool) (t : TVState) (cfg : TVConfig) (ok2 : Bool)
    (h : Emit.persist cfg ok2 ∈ persistEmits saveOk t) :
    saveWrite t.tvIp t.clientKey = some cfg := by
  unfold persistEmits at h
  rcases hsw : saveWrite t.tvIp t.clientKey with _ | cfg2 <;> rw [hsw] at h
  · simp at h
  · simp at h
    rw [h.1]

/-- C3: the `register` handler resolves and moves the session to `ready`
exactly when the response has type `registered`, or type `response` with a
non-empty string client-key (in which case the stored credential is updated
to that key); a `type: "error"` response moves the session to `disconnected`
and rejects with the response's error (or a default), emitting nothing
else. -/
theorem register_response_handling (saveOk : Bool) (s : TVState) (resp : LGResponse) :
    ((Emit.regResolve ∈ (registerHandle saveOk s resp).2
        ∧ (registerHandle saveOk s resp).1.status = .ready)
      ↔ regSuccess resp = true)
    ∧ (∀ k, keyStrOf resp = some k → regSuccess resp = true →
        (registerHandle saveOk s resp).1.clientKey = some k)
    ∧ (resp.type = "error" →
        (registerHandle saveOk s resp).1.status = .disconnected
        ∧ (registerHandle saveOk s resp).2 =
          [.notify (getStatus { s with status := .disconnected }),
           .regReject (regErrMsg resp)]) := by
  refine ⟨⟨?_, ?_⟩, ?_, ?_⟩
  · rintro ⟨hmem, hst⟩
    by_cases h : regSuccess resp = true
    · exact h
    · exfalso
      unfold registerHandle at hmem
      rw [if_neg h] at hmem
      by_cases he : resp.type = "error"
      · rw [if_pos he] at hmem
        simp at hmem
      · rw [if_neg he] at hmem
        simp at hmem
  · intro h
    unfold registerHandle
    rw [if_pos h]
    refine ⟨by simp, ?_⟩
    rw [postReady_status]
  · intro k hk hs
    unfold registerHandle
    rw [if_pos hs]
    rw [postReady_clientKey]
    show (keyUpdState s resp).clientKey = some k
    exact keyUpdState_clientKey s resp k hk
  · intro he
    have hns : regSuccess resp = false := by
      unfold regSuccess
      rw [he]
      simp [keyStrOf]
    unfold registerHandle
    rw [if_neg (by simp [hns]), if_pos he]
    exact ⟨rfl, rfl⟩

/-- Witness for `register_response_handling`: a rejected pairing. -/
theorem register_response_handling_witness :
    (registerHandle true initState
      { id := "r", type := "error", error := some "rejected" }).1.status
        = .disconnected := by
  exact ((register_response_handling true initState
    { id := "r", type := "error", error := some "rejected" }).2.2 rfl).1

/-- C7: the credential store is written only on a successful handshake while
a non-empty key (and address) is held; in the scenario of connecting with no
stored credential and receiving a `registered` response without a key, the
session reaches `ready`, the handshake resolves and no write happens; and
since `saveConfig()`'s promise outcome is discarded
(`.catch(() => {})`), a persist failure never changes the resulting state or
resolution. -/
theorem register_persist_policy (saveOk : Bool) (s : TVState) (resp : LGResponse) :
    (∀ cfg ok2, Emit.persist cfg ok2 ∈ (registerHandle saveOk s resp).2 →
       regSuccess resp = true ∧ cfg.tvIp ≠ "" ∧ cfg.clientKey ≠ "")
    ∧ (s.clientKey = none → resp.type = "registered" → keyStrOf resp = none →
        (registerHandle saveOk s resp).1.status = .ready
        ∧ Emit.regResolve ∈ (registerHandle saveOk s resp).2
        ∧ ∀ cfg ok2, Emit.persist cfg ok2 ∉ (registerHandle saveOk s resp).2)
    ∧ (registerHandle true s resp).1 = (registerHandle false s resp).1
    ∧ (Emit.regResolve ∈ (registerHandle true s resp).2
        ↔ Emit.regResolve ∈ (registerHandle false s resp).2) := by
  refine ⟨?_, ?_, ?_, ?_⟩
  · intro cfg ok2 hmem
    by_cases h : regSuccess resp = true
    · refine ⟨h, ?_⟩
      unfold registerHandle at hmem
      rw [if_pos h] at hmem
      have hp : Emit.persist cfg ok2 ∈ persistEmits saveOk (keyUpdState s resp) := by
        simpa using hmem
      exact saveWrite_some _ _ _ (persistEmits_mem saveOk _ cfg ok2 hp)
    · exfalso
      unfold registerHandle at hmem
      rw [if_neg h] at hmem
      by_cases he : resp.type = "error"
      · rw [if_pos he] at hmem
        simp at hmem
      · rw [if_neg he] at hmem
        simp at hmem
  · intro hck hty hk
    have hs : regSuccess resp = true := by simp [regSuccess, hty]
    unfold registerHandle
    rw [if_pos hs, keyUpdState_of_none s resp hk]
    have hw : persistEmits saveOk s = [] := by
      unfold persistEmits
      rw [hck, saveWrite_none_key]
    rw [hw]
    refine ⟨?_, by simp, ?_⟩
    · rw [postReady_status]
    · intro cfg ok2
      simp
  · unfold registerHandle
    by_cases h : regSuccess resp = true
    · rw [if_pos h, if_pos h]
    · rw [if_neg h, if_neg h]
  · unfold registerHandle
    by_cases h : regSuccess resp = true
    · rw [if_pos h, if_pos h]
      unfold persistEmits
      rcases hsw : saveWrite (keyUpdState s resp).tvIp (keyUpdState s resp).clientKey
          with _ | cfg2 <;> simp
    · rw [if_neg h, if_neg h]

/-- A session mid-pairing at `10.0.0.5` with no stored credential. -/
def c7State : TVState :=
  { initState with tvIp := some "10.0.0.5", mainWs := some .OPEN, status := .pairing }

/-- Witness for `register_persist_policy`: the `10.0.0.5` scenario — no
stored credential, `registered` response with no key. -/
theorem register_persist_policy_witness :
    (registerHandle true c7State { id := "r", type := "registered" }).1.status = .ready := by
  exact ((register_persist_policy true c7State
    { id := "r", type := "registered" }).2.1 rfl rfl rfl).1

/-! ## Status notifications (C6) -/

/-- A state already showing the app `netflix`. -/
def c6State : TVState := { initState with currentApp := some (.str "netflix") }

/-- An unsolicited status message carrying the same app id again. -/
def c6Resp : LGResponse :=
  { id := "x", type := "response",
    payload := some { appId := some (.str "netflix") } }

/-- C6 counterexample: an unsolicited message whose `appId` equals the
already-stored value still triggers a status notification — the code never
compares the incoming value with the stored one, contradicting the claim
that a notification is emitted only when the value differs. -/
theorem unsolicited_same_value_notifies :
    (handleMainMessage true c6State c6Resp).2 ≠ []
    ∧ (handleMainMessage true c6State c6Resp).1.currentApp = c6State.currentApp
    ∧ c6Resp.payload.bind LGPayload.appId = c6State.currentApp := by
  decide

/-- C6 (amended): for an unsolicited status message, one notification is
emitted per relevant field *present* in the payload (`appId`;
`volume`/`muted`), regardless of whether the value differs from the stored
one; an absent field leaves the stored value unchanged and emits no
notification.  The foreground-app subscription handler notifies exactly
when `appId` is present and truthy, the volume subscription handler exactly
when `volume` is present; both leave the state unchanged otherwise. -/
theorem status_notification_amended (saveOk : Bool) (s : TVState) (resp : LGResponse)
    (hnone : s.pendingRequests resp.id = none) :
    ((handleMainMessage saveOk s resp).2.length =
      (if (resp.payload.bind LGPayload.appId).isSome then 1 else 0)
      + (if (resp.payload.bind LGPayload.volume).isSome then 1 else 0))
    ∧ (resp.payload.bind LGPayload.appId = none →
        (handleMainMessage saveOk s resp).1.currentApp = s.currentApp)
    ∧ (resp.payload.bind LGPayload.volume = none →
        (handleMainMessage saveOk s resp).1.volume = s.volume
        ∧ (handleMainMessage saveOk s resp).1.muted = s.muted)
    ∧ ((runHandler saveOk .fgSub s resp).2.length =
        if jsTruthy (resp.payload.bind LGPayload.appId) then 1 else 0)
    ∧ (jsTruthy (resp.payload.bind LGPayload.appId) = false →
        (runHandler saveOk .fgSub s resp).1 = s)
    ∧ ((runHandler saveOk .volSub s resp).2.length =
        if (resp.payload.bind LGPayload.volume).isSome then 1 else 0)
    ∧ (resp.payload.bind LGPayload.volume = none →
        (runHandler saveOk .volSub s resp).1 = s) := by
  have hmsg : handleMainMessage saveOk s resp = unsolicited s resp := by
    unfold handleMainMessage
    rw [hnone]
  rw [hmsg]
  refine ⟨?_, ?_, ?_, ?_, ?_, ?_, ?_⟩
  · unfold unsolicited
    rcases resp.payload with _ | p
    · simp
    · dsimp only [Option.bind]
      by_cases ha : p.appId.isSome <;> by_cases hv : p.volume.isSome <;>
        simp [ha, hv]
  · intro hap
    unfold unsolicited
    rcases hp : resp.payload with _ | p
    · rfl
    · rw [hp] at hap
      dsimp only [Option.bind] at hap
      dsimp only
      rw [hap]
      by_cases hv : p.volume.isSome <;> simp [hv]
  · intro hvol
    unfold unsolicited
    rcases hp : resp.payload with _ | p
    · exact ⟨rfl, rfl⟩
    · rw [hp] at hvol
      dsimp only [Option.bind] at hvol
      dsimp only
      rw [hvol]
      by_cases ha : p.appId.isSome <;> simp [ha, nullishUpdate]
  · unfold runHandler
    by_cases ha : jsTruthy (resp.payload.bind LGPayload.appId) <;> simp [ha]
  · intro ha
    unfold runHandler
    rw [ha]
    simp
  · unfold runHandler
    rcases hp : resp.payload with _ | p
    · simp
    · dsimp only [Option.bind]
      by_cases hv : p.volume.isSome <;> simp [hv]
  · intro hvol
    unfold runHandler
    rcases hp : resp.payload with _ | p
    · rfl
    · rw [hp] at hvol
      dsimp only [Option.bind] at hvol
      dsimp only
      rw [hvol]
      simp

/-- A volume-only status payload. -/
def c6WResp : LGResponse :=
  { id := "v", type := "response",
    payload := some { volume := some (.num 7), muted := some (.bool true) } }

/-- Witness for `status_notification_amended`: a volume-only unsolicited
message emits exactly one notification. -/
theorem status_notification_amended_witness :
    (handleMainMessage true initState c6WResp).2.length = 1 := by
  have h := (status_notification_amended true initState c6WResp rfl).1
  simpa using h

/-! ## Pending-map removal on dispatch (C5) -/

theorem keyUpdState_fields (s : TVState) (resp : LGResponse) :
    (keyUpdState s resp).msgId = s.msgId
    ∧ (keyUpdState s resp).pendingRequests = s.pendingRequests
    ∧ (keyUpdState s resp).subscriptionIds = s.subscriptionIds
    ∧ (keyUpdState s resp).mainWs = s.mainWs
    ∧ (keyUpdState s resp).tokCounter = s.tokCounter
    ∧ (keyUpdState s resp).registrationRequestId = s.registrationRequestId := by
  unfold keyUpdState
  cases keyStrOf resp <;> exact ⟨rfl, rfl, rfl, rfl, rfl, rfl⟩

theorem setupPointerSkt_pending_ne (s : TVState) (i : String)
    (h1 : i ≠ mkMsgId (s.msgId + 1)) :
    (setupPointerSkt s).pendingRequests i = s.pendingRequests i := by
  unfold setupPointerSkt
  split
  · simp [mapSet, h1]
  · rfl

theorem setupPointerSkt_msgId_cases (s : TVState) :
    (setupPointerSkt s).msgId = s.msgId + 1 ∨ (setupPointerSkt s).msgId = s.msgId := by
  unfold setupPointerSkt
  split
  · exact Or.inl rfl
  · exact Or.inr rfl

theorem subscribeToStatus_pending_ne (s : TVState) (i : String)
    (h1 : i ≠ mkMsgId (s.msgId + 1)) (h2 : i ≠ mkMsgId (s.msgId + 2)) :
    (subscribeToStatus s).pendingRequests i = s.pendingRequests i := by
  unfold subscribeToStatus
  dsimp only
  by_cases hm : s.mainWs.isNone <;> simp [hm, mapSet, h1, h2]

theorem postReady_pending_ne (t : TVState) (i : String)
    (h1 : i ≠ mkMsgId (t.msgId + 1)) (h2 : i ≠ mkMsgId (t.msgId + 2))
    (h3 : i ≠ mkMsgId (t.msgId + 3)) :
    (subscribeToStatus (setupPointerSkt t)).pendingRequests i
      = t.pendingRequests i := by
  rcases setupPointerSkt_msgId_cases t with hm | hm
  · rw [subscribeToStatus_pending_ne (setupPointerSkt t) i
      (by rw [hm]; exact h2) (by rw [hm]; exact h3)]
    exact setupPointerSkt_pending_ne t i h1
  · rw [subscribeToStatus_pending_ne (setupPointerSkt t) i
      (by rw [hm]; exact h1) (by rw [hm]; exact h2)]
    exact setupPointerSkt_pending_ne t i h1

theorem registerHandle_pending_ne (saveOk : Bool) (s : TVState) (resp : LGResponse)
    (i : String) (h1 : i ≠ mkMsgId (s.msgId + 1)) (h2 : i ≠ mkMsgId (s.msgId + 2))
    (h3 : i ≠ mkMsgId (s.msgId + 3)) :
    (registerHandle saveOk s resp).1.pendingRequests i = s.pendingRequests i := by
  unfold registerHandle
  by_cases h : regSuccess resp = true
  · rw [if_pos h]
    have hm : ({ keyUpdState s resp with status := TVConnectionStatus.ready }).msgId
        = s.msgId := (keyUpdState_fields s resp).1
    rw [postReady_pending_ne _ i (by rw [hm]; exact h1) (by rw [hm]; exact h2)
      (by rw [hm]; exact h3)]
    exact congrFun (keyUpdState_fields s resp).2.1 i
  · rw [if_neg h]
    by_cases he : resp.type = "error"
    · rw [if_pos he]
    · rw [if_neg he]

theorem runHandler_pending_ne (saveOk : Bool) (h : Handler) (s : TVState)
    (resp : LGResponse) (i : String)
    (h1 : i ≠ mkMsgId (s.msgId + 1)) (h2 : i ≠ mkMsgId (s.msgId + 2))
    (h3 : i ≠ mkMsgId (s.msgId + 3)) :
    (runHandler saveOk h s resp).1.pendingRequests i = s.pendingRequests i := by
  cases h with
  | sendResolver tok => rfl
  | regHandler => exact registerHandle_pending_ne saveOk s resp i h1 h2 h3
  | fgSub =>
    unfold runHandler
    by_cases ha : jsTruthy (resp.payload.bind LGPayload.appId) <;> simp [ha]
  | volSub =>
    unfold runHandler
    rcases resp.payload with _ | p
    · rfl
    · dsimp only
      by_cases hv : p.volume.isSome <;> simp [hv]

/-- A pairing in flight: the registration request `reg1` is pending. -/
def c5State : TVState :=
  { initState with
    pendingRequests := fun i => if i = "reg1" then some .regHandler else none
    registrationRequestId := some "reg1"
    status := .pairing
    mainWs := some .OPEN }

/-- The TV's pairing-prompt acknowledgment: `type: "response"` with no
client-key. -/
def c5Resp : LGResponse := { id := "reg1", type := "response" }

/-- C5 counterexample: the pairing-prompt acknowledgment is dispatched to
the registration handler — a non-subscription response — yet its entry is
kept in the pending map (registration is not yet done), contradicting the
claim that any non-subscription dispatch removes the entry. -/
theorem registration_prompt_entry_kept :
    (handleMainMessage true c5State c5Resp).1.pendingRequests "reg1"
        = some .regHandler
    ∧ c5State.subscriptionIds "reg1" = false
    ∧ c5State.pendingRequests "reg1" = some .regHandler := by
  decide

/-- C5 (amended): when a pending response is dispatched, its entry is
removed from the map exactly when the identifier is not a subscription and
not the in-flight registration, or it is the in-flight registration and the
response completes registration (`registered`/`error`/a string client-key);
in particular the in-flight registration entry survives a response that does
not complete registration.  (Uniqueness of the resolver per identifier holds
by construction: the pending map is a `Map`, whose `set` overwrites.)  The
freshness hypotheses exclude the three ids a registration success would
newly allocate. -/
theorem pending_removal_on_dispatch (saveOk : Bool) (s : TVState) (resp : LGResponse)
    (h : Handler) (hh : s.pendingRequests resp.id = some h)
    (h1 : resp.id ≠ mkMsgId (s.msgId + 1)) (h2 : resp.id ≠ mkMsgId (s.msgId + 2))
    (h3 : resp.id ≠ mkMsgId (s.msgId + 3)) :
    (handleMainMessage saveOk s resp).1.pendingRequests resp.id = none
      ↔ ((s.subscriptionIds resp.id = false ∧ s.registrationRequestId ≠ some resp.id)
         ∨ (s.registrationRequestId = some resp.id ∧ regDoneOf resp = true)) := by
  unfold handleMainMessage
  rw [hh]
  by_cases hc1 : s.subscriptionIds resp.id = false
      ∧ s.registrationRequestId ≠ some resp.id
  · rw [if_pos hc1]
    dsimp only
    rw [runHandler_pending_ne saveOk h
      { s with pendingRequests := mapDel s.pendingRequests resp.id }
      resp resp.id h1 h2 h3]
    simp [mapDel]
    exact Or.inl hc1
  · rw [if_neg hc1]
    by_cases hc2 : s.registrationRequestId = some resp.id ∧ regDoneOf resp = true
    · rw [if_pos hc2]
      dsimp only
      rw [runHandler_pending_ne saveOk h
        { s with pendingRequests := mapDel s.pendingRequests resp.id,
                 registrationRequestId := none }
        resp resp.id h1 h2 h3]
      simp [mapDel]
      exact Or.inr hc2
    · rw [if_neg hc2]
      dsimp only
      rw [runHandler_pending_ne saveOk h s resp resp.id h1 h2 h3]
      rw [hh]
      constructor
      · intro hx
        exact absurd hx (by simp)
      · intro hx
        rcases hx with hx | hx
        · exact absurd hx hc1
        · exact absurd hx hc2

/-- Witness for `pending_removal_on_dispatch`: an ordinary `sendMain`
request's entry is removed when its response is dispatched. -/
theorem pending_removal_on_dispatch_witness :
    (handleMainMessage true
      { initState with
          pendingRequests := fun i => if i = "msg_1" then some (.sendResolver 1) else none
          msgId := 1, tokCounter := 1, mainWs := some .OPEN }
      { id := "msg_1", type := "response" }).1.pendingRequests "msg_1" = none := by
  exact (pending_removal_on_dispatch true
    { initState with
        pendingRequests := fun i => if i = "msg_1" then some (.sendResolver 1) else none
        msgId := 1, tokCounter := 1, mainWs := some .OPEN }
    { id := "msg_1", type := "response" } (.sendResolver 1)
    (by decide) (by decide) (by decide) (by decide)).2
      (Or.inl ⟨rfl, by decide⟩)

/-! ## The correlator: timeouts and at-most-once resolution (C2) -/

/-- No live resolver closure with ghost token `tok` remains, and `tok` is
not in the future of the token counter. -/
def noTok (tok : Nat) (s : TVState) : Prop :=
  tok ≤ s.tokCounter
  ∧ ∀ i, s.pendingRequests i ≠ some (.sendResolver tok)

/-- The state of a `sendMain` request with id `id` and resolver token `tok`:
the token is not in the counter's future, at most the entry at `id` holds
the resolver, and while it does, `id` is neither a subscription nor the
in-flight registration.  `sendMain` establishes this for the entry it
creates (last conjunct of the C2 theorem). -/
def sendInv (id : String) (tok : Nat) (s : TVState) : Prop :=
  tok ≤ s.tokCounter
  ∧ (∀ i, s.pendingRequests i = some (.sendResolver tok) → i = id)
  ∧ (s.pendingRequests id = some (.sendResolver tok) →
      s.subscriptionIds id = false ∧ s.registrationRequestId ≠ some id)

/-- Every stored resolver's token was drawn from the counter. -/
def TokBound (s : TVState) : Prop :=
  ∀ i t, s.pendingRequests i = some (.sendResolver t) → t ≤ s.tokCounter

theorem resCount_append (tok : Nat) (a b : List Emit) :
    resCount tok (a ++ b) = resCount tok a + resCount tok b := by
  simp [resCount]

theorem mapDel_subset (m : String → Option Handler) (k i : String) (v : Handler)
    (h : mapDel m k i = some v) : m i = some v := by
  unfold mapDel at h
  by_cases hi : i = k
  · rw [if_pos hi] at h
    cases h
  · rw [if_neg hi] at h
    exact h

theorem setupPointerSkt_pending_shape (s : TVState) (i : String) :
    (setupPointerSkt s).pendingRequests i = s.pendingRequests i
    ∨ ∃ t, s.tokCounter < t
        ∧ (setupPointerSkt s).pendingRequests i = some (.sendResolver t) := by
  unfold setupPointerSkt
  split
  · by_cases hi : i = mkMsgId (s.msgId + 1)
    · exact Or.inr ⟨s.tokCounter + 1, Nat.lt_succ_self _, by simp [mapSet, hi]⟩
    · exact Or.inl (by simp [mapSet, hi])
  · exact Or.inl rfl

theorem subscribeToStatus_shape (s : TVState) (i : String) :
    ((subscribeToStatus s).pendingRequests i = s.pendingRequests i
      ∧ (subscribeToStatus s).subscriptionIds i = s.subscriptionIds i)
    ∨ (subscribeToStatus s).pendingRequests i = some .fgSub
    ∨ (subscribeToStatus s).pendingRequests i = some .volSub := by
  unfold subscribeToStatus
  dsimp only
  by_cases hm : s.mainWs.isNone
  · by_cases h1 : i = mkMsgId (s.msgId + 1)
    · exact Or.inr (Or.inl (by simp [hm, mapSet, h1]))
    · exact Or.inl ⟨by simp [hm, mapSet, h1], by simp [hm, subAdd, h1]⟩
  · by_cases h2 : i = mkMsgId (s.msgId + 1 + 1)
    · exact Or.inr (Or.inr (by simp [hm, mapSet, h2]))
    · by_cases h1 : i = mkMsgId (s.msgId + 1)
      · rw [h1] at h2
        exact Or.inr (Or.inl (by simp [hm, mapSet, h1, h2]))
      · exact Or.inl ⟨by simp [hm, mapSet, h1, h2], by simp [hm, subAdd, h1, h2]⟩

theorem registerHandle_shape (saveOk : Bool) (s : TVState) (resp : LGResponse)
    (i : String) :
    s.tokCounter ≤ (registerHandle saveOk s resp).1.tokCounter
    ∧ (registerHandle saveOk s resp).1.registrationRequestId
        = s.registrationRequestId
    ∧ (((registerHandle saveOk s resp).1.pendingRequests i = s.pendingRequests i
         ∧ (registerHandle saveOk s resp).1.subscriptionIds i
             = s.subscriptionIds i)
       ∨ (∃ t, s.tokCounter < t
           ∧ (registerHandle saveOk s resp).1.pendingRequests i
               = some (.sendResolver t))
       ∨ (registerHandle saveOk s resp).1.pendingRequests i = some .fgSub
       ∨ (registerHandle saveOk s resp).1.pendingRequests i = some .volSub) := by
  unfold registerHandle
  by_cases h : regSuccess resp = true
  · rw [if_pos h]
    have hku := keyUpdState_fields s resp
    have ht0tok : ({ keyUpdState s resp with
        status := TVConnectionStatus.ready }).tokCounter = s.tokCounter :=
      hku.2.2.2.2.1
    refine ⟨?_, ?_, ?_⟩
    · rw [(subscribeToStatus_fields _).2.2.2.1]
      rw [← ht0tok]
      exact (setupPointerSkt_fields _).2.2.2.2.2
    · rw [(subscribeToStatus_fields _).2.2.1, (setupPointerSkt_fields _).2.2.1]
      exact hku.2.2.2.2.2
    · rcases subscribeToStatus_shape
          (setupPointerSkt { keyUpdState s resp with status := .ready }) i with
        ⟨hp, hs⟩ | hp | hp
      · rcases setupPointerSkt_pending_shape
            { keyUpdState s resp with status := .ready } i with hp2 | ⟨t, htl, hp2⟩
        · refine Or.inl ⟨?_, ?_⟩
          · rw [hp, hp2]
            exact congrFun hku.2.1 i
          · rw [hs, congrFun (setupPointerSkt_fields _).2.2.2.1 i]
            exact congrFun hku.2.2.1 i
        · refine Or.inr (Or.inl ⟨t, ?_, ?_⟩)
          · rw [ht0tok] at htl
            exact htl
          · rw [hp]
            exact hp2
      · exact Or.inr (Or.inr (Or.inl hp))
      · exact Or.inr (Or.inr (Or.inr hp))
  · rw [if_neg h]
    by_cases he : resp.type = "error"
    · rw [if_pos he]
      exact ⟨Nat.le_refl _, rfl, Or.inl ⟨rfl, rfl⟩⟩
    · rw [if_neg he]
      exact ⟨Nat.le_refl _, rfl, Or.inl ⟨rfl, rfl⟩⟩

theorem registerHandle_resCount (saveOk : Bool) (s : TVState) (resp : LGResponse)
    (tok : Nat) : resCount tok (registerHandle saveOk s resp).2 = 0 := by
  unfold registerHandle
  by_cases h : regSuccess resp = true
  · rw [if_pos h]
    cases hsw : saveWrite (keyUpdState s resp).tvIp (keyUpdState s resp).clientKey with
    | none => simp [resCount, persistEmits, hsw, isResolveTok]
    | some cfg => simp [resCount, persistEmits, hsw, isResolveTok]
  · rw [if_neg h]
    by_cases he : resp.type = "error"
    · rw [if_pos he]
      simp [resCount, isResolveTok]
    · rw [if_neg he]
      rfl

theorem unsolicited_shape (s : TVState) (resp : LGResponse) :
    (unsolicited s resp).1.pendingRequests = s.pendingRequests
    ∧ (unsolicited s resp).1.subscriptionIds = s.subscriptionIds
    ∧ (unsolicited s resp).1.tokCounter = s.tokCounter
    ∧ (unsolicited s resp).1.registrationRequestId = s.registrationRequestId
    ∧ ∀ tok, resCount tok (unsolicited s resp).2 = 0 := by
  unfold unsolicited
  rcases resp.payload with _ | p
  · exact ⟨rfl, rfl, rfl, rfl, fun tok => rfl⟩
  · dsimp only
    by_cases ha : p.appId.isSome <;> by_cases hv : p.volume.isSome <;>
      simp [ha, hv, resCount, isResolveTok]

theorem noTok_transfer (tok : Nat) (s s1 : TVState) (h : noTok tok s)
    (hsub : ∀ i v, s1.pendingRequests i = some v → s.pendingRequests i = some v)
    (htokc : s.tokCounter ≤ s1.tokCounter) : noTok tok s1 := by
  obtain ⟨htok, hno⟩ := h
  refine ⟨htok.trans htokc, ?_⟩
  intro i hcon
  exact hno i (hsub i _ hcon)

theorem sendInv_transfer (id : String) (tok : Nat) (s s1 : TVState)
    (hinv : sendInv id tok s)
    (hsub : ∀ i v, s1.pendingRequests i = some v → s.pendingRequests i = some v)
    (hsubs : ∀ i, s1.subscriptionIds i = s.subscriptionIds i)
    (hreg : s1.registrationRequestId = s.registrationRequestId
            ∨ s1.registrationRequestId = none)
    (htokc : s.tokCounter ≤ s1.tokCounter) : sendInv id tok s1 := by
  obtain ⟨htok, huniq, hcond⟩ := hinv
  refine ⟨htok.trans htokc, ?_, ?_⟩
  · intro i hp
    exact huniq i (hsub i _ hp)
  · intro hp
    obtain ⟨h1, h2⟩ := hcond (hsub id _ hp)
    refine ⟨(hsubs id).trans h1, ?_⟩
    rcases hreg with hr | hr
    · rw [hr]
      exact h2
    · rw [hr]
      simp

theorem registerHandle_inv (saveOk : Bool) (id : String) (tok : Nat)
    (s : TVState) (resp : LGResponse) (hinv : sendInv id tok s) :
    sendInv id tok (registerHandle saveOk s resp).1 := by
  obtain ⟨htok, huniq, hcond⟩ := hinv
  refine ⟨htok.trans (registerHandle_shape saveOk s resp id).1, ?_, ?_⟩
  · intro i hp
    rcases (registerHandle_shape saveOk s resp i).2.2 with
      ⟨hpe, _⟩ | ⟨tk, htk, hpe⟩ | hpe | hpe
    · rw [hpe] at hp
      exact huniq i hp
    · rw [hpe] at hp
      simp at hp
      omega
    · rw [hpe] at hp
      simp at hp
    · rw [hpe] at hp
      simp at hp
  · intro hp
    rcases (registerHandle_shape saveOk s resp id).2.2 with
      ⟨hpe, hse⟩ | ⟨tk, htk, hpe⟩ | hpe | hpe
    · rw [hpe] at hp
      obtain ⟨h1, h2⟩ := hcond hp
      refine ⟨hse.trans h1, ?_⟩
      rw [(registerHandle_shape saveOk s resp id).2.1]
      exact h2
    · rw [hpe] at hp
      simp at hp
      omega
    · rw [hpe] at hp
      simp at hp
    · rw [hpe] at hp
      simp at hp

theorem handlerStep_noTok (saveOk : Bool) (tok : Nat) (h : Handler) (s1 : TVState)
    (resp : LGResponse) (hn : noTok tok s1) (hneq : h ≠ Handler.sendResolver tok) :
    resCount tok (runHandler saveOk h s1 resp).2 = 0
    ∧ noTok tok (runHandler saveOk h s1 resp).1 := by
  obtain ⟨htok, hno⟩ := hn
  cases h with
  | sendResolver tk =>
    have htk : tk ≠ tok := fun hx => hneq (by rw [hx])
    exact ⟨by simp [runHandler, resCount, isResolveTok, htk], htok, hno⟩
  | regHandler =>
    refine ⟨registerHandle_resCount saveOk s1 resp tok,
      htok.trans (registerHandle_shape saveOk s1 resp resp.id).1, ?_⟩
    intro i
    show (registerHandle saveOk s1 resp).1.pendingRequests i
      ≠ some (Handler.sendResolver tok)
    rcases (registerHandle_shape saveOk s1 resp i).2.2 with
      ⟨hpe, _⟩ | ⟨tk, htk, hpe⟩ | hpe | hpe
    · rw [hpe]
      exact hno i
    · rw [hpe]
      intro hc
      simp at hc
      omega
    · rw [hpe]
      simp
    · rw [hpe]
      simp
  | fgSub =>
    unfold runHandler
    by_cases ha : jsTruthy (resp.payload.bind LGPayload.appId) = true
    · rw [if_pos ha]
      exact ⟨rfl, htok, hno⟩
    · rw [if_neg ha]
      exact ⟨rfl, htok, hno⟩
  | volSub =>
    unfold runHandler
    cases hp : resp.payload with
    | none => exact ⟨rfl, htok, hno⟩
    | some p =>
      dsimp only
      by_cases hv : p.volume.isSome = true
      · rw [if_pos hv]
        exact ⟨rfl, htok, hno⟩
      · rw [if_neg hv]
        exact ⟨rfl, htok, hno⟩

theorem handlerStep_inv (saveOk : Bool) (id : String) (tok : Nat) (h : Handler)
    (s s1 : TVState) (resp : LGResponse)
    (hinv : sendInv id tok s)
    (hsub : ∀ i v, s1.pendingRequests i = some v → s.pendingRequests i = some v)
    (hsubs : ∀ i, s1.subscriptionIds i = s.subscriptionIds i)
    (hreg : s1.registrationRequestId = s.registrationRequestId
            ∨ s1.registrationRequestId = none)
    (htokc : s.tokCounter ≤ s1.tokCounter)
    (hneq : h ≠ Handler.sendResolver tok) :
    resCount tok (runHandler saveOk h s1 resp).2 = 0
    ∧ sendInv id tok (runHandler saveOk h s1 resp).1 := by
  have hinv1 : sendInv id tok s1 :=
    sendInv_transfer id tok s s1 hinv hsub hsubs hreg htokc
  cases h with
  | sendResolver tk =>
    have htk : tk ≠ tok := fun hx => hneq (by rw [hx])
    exact ⟨by simp [runHandler, resCount, isResolveTok, htk], hinv1⟩
  | regHandler =>
    exact ⟨registerHandle_resCount saveOk s1 resp tok,
      registerHandle_inv saveOk id tok s1 resp hinv1⟩
  | fgSub =>
    unfold runHandler
    by_cases ha : jsTruthy (resp.payload.bind LGPayload.appId) = true
    · rw [if_pos ha]
      exact ⟨rfl, hinv1⟩
    · rw [if_neg ha]
      exact ⟨rfl, hinv1⟩
  | volSub =>
    unfold runHandler
    cases hp : resp.payload with
    | none => exact ⟨rfl, hinv1⟩
    | some p =>
      dsimp only
      by_cases hv : p.volume.isSome = true
      · rw [if_pos hv]
        exact ⟨rfl, hinv1⟩
      · rw [if_neg hv]
        exact ⟨rfl, hinv1⟩

theorem runEvent_noTok (saveOk : Bool) (tok : Nat) (s : TVState) (e : MainEvent)
    (h : noTok tok s) :
    resCount tok (runEvent saveOk s e).2 = 0 ∧ noTok tok (runEvent saveOk s e).1 := by
  cases e with
  | sendTimeout id2 tk =>
    unfold runEvent
    dsimp only
    by_cases hp : (s.pendingRequests id2).isSome
    · rw [if_pos hp]
      exact ⟨rfl, noTok_transfer tok s _ h
        (fun i v hv => mapDel_subset _ _ _ _ hv) (Nat.le_refl _)⟩
    · rw [if_neg hp]
      exact ⟨rfl, h⟩
  | regTimeout id2 =>
    unfold runEvent
    dsimp only
    by_cases hp : (s.pendingRequests id2).isSome
    · rw [if_pos hp]
      exact ⟨rfl, noTok_transfer tok s _ h
        (fun i v hv => mapDel_subset _ _ _ _ hv) (Nat.le_refl _)⟩
    · rw [if_neg hp]
      exact ⟨rfl, h⟩
  | msg resp =>
    show resCount tok (handleMainMessage saveOk s resp).2 = 0
      ∧ noTok tok (handleMainMessage saveOk s resp).1
    unfold handleMainMessage
    cases hh : s.pendingRequests resp.id with
    | none =>
      have hsh := unsolicited_shape s resp
      refine ⟨hsh.2.2.2.2 tok, noTok_transfer tok s _ h ?_ ?_⟩
      · intro i v hv
        rw [← congrFun hsh.1 i]
        exact hv
      · rw [hsh.2.2.1]
    | some hd =>
      dsimp only
      have hneq : hd ≠ Handler.sendResolver tok := by
        intro hx
        exact h.2 resp.id (hx ▸ hh)
      by_cases hc1 : s.subscriptionIds resp.id = false
          ∧ s.registrationRequestId ≠ some resp.id
      · rw [if_pos hc1]
        exact handlerStep_noTok saveOk tok hd _ resp
          (noTok_transfer tok s _ h
            (fun i v hv => mapDel_subset _ _ _ _ hv) (Nat.le_refl _)) hneq
      · rw [if_neg hc1]
        by_cases hc2 : s.registrationRequestId = some resp.id ∧ regDoneOf resp = true
        · rw [if_pos hc2]
          exact handlerStep_noTok saveOk tok hd _ resp
            (noTok_transfer tok s _ h
              (fun i v hv => mapDel_subset _ _ _ _ hv) (Nat.le_refl _)) hneq
        · rw [if_neg hc2]
          exact handlerStep_noTok saveOk tok hd s resp h hneq

theorem runEvent_step (saveOk : Bool) (id : String) (tok : Nat) (s : TVState)
    (e : MainEvent) (hinv : sendInv id tok s) :
    (resCount tok (runEvent saveOk s e).2 = 0 ∧ sendInv id tok (runEvent saveOk s e).1)
    ∨ (resCount tok (runEvent saveOk s e).2 ≤ 1 ∧ noTok tok (runEvent saveOk s e).1) := by
  cases e with
  | sendTimeout id2 tk =>
    unfold runEvent
    dsimp only
    by_cases hp : (s.pendingRequests id2).isSome
    · rw [if_pos hp]
      left
      exact ⟨rfl, sendInv_transfer id tok s _ hinv
        (fun i v hv => mapDel_subset _ _ _ _ hv) (fun i => rfl)
        (Or.inl rfl) (Nat.le_refl _)⟩
    · rw [if_neg hp]
      exact Or.inl ⟨rfl, hinv⟩
  | regTimeout id2 =>
    unfold runEvent
    dsimp only
    by_cases hp : (s.pendingRequests id2).isSome
    · rw [if_pos hp]
      left
      exact ⟨rfl, sendInv_transfer id tok s _ hinv
        (fun i v hv => mapDel_subset _ _ _ _ hv) (fun i => rfl)
        (Or.inr rfl) (Nat.le_refl _)⟩
    · rw [if_neg hp]
      exact Or.inl ⟨rfl, hinv⟩
  | msg resp =>
    show (resCount tok (handleMainMessage saveOk s resp).2 = 0
        ∧ sendInv id tok (handleMainMessage saveOk s resp).1)
      ∨ (resCount tok (handleMainMessage saveOk s resp).2 ≤ 1
        ∧ noTok tok (handleMainMessage saveOk s resp).1)
    unfold handleMainMessage
    cases hh : s.pendingRequests resp.id with
    | none =>
      left
      have hsh := unsolicited_shape s resp
      refine ⟨hsh.2.2.2.2 tok, sendInv_transfer id tok s _ hinv ?_ ?_
        (Or.inl hsh.2.2.2.1) ?_⟩
      · intro i v hv
        rw [← congrFun hsh.1 i]
        exact hv
      · intro i
        exact congrFun hsh.2.1 i
      · rw [hsh.2.2.1]
    | some hd =>
      dsimp only
      by_cases hc1 : s.subscriptionIds resp.id = false
          ∧ s.registrationRequestId ≠ some resp.id
      · rw [if_pos hc1]
        by_cases htk : hd = Handler.sendResolver tok
        · right
          subst htk
          have hid : resp.id = id := hinv.2.1 resp.id hh
          subst hid
          constructor
          · show resCount tok [Emit.resolveSend tok resp] ≤ 1
            simp [resCount, isResolveTok]
          · refine ⟨hinv.1, ?_⟩
            intro i
            show mapDel s.pendingRequests resp.id i ≠ some (.sendResolver tok)
            unfold mapDel
            by_cases hi : i = resp.id
            · simp [hi]
            · rw [if_neg hi]
              intro hcon
              exact hi (hinv.2.1 i hcon)
        · left
          exact handlerStep_inv saveOk id tok hd s _ resp hinv
            (fun i v hv => mapDel_subset _ _ _ _ hv) (fun i => rfl)
            (Or.inl rfl) (Nat.le_refl _) htk
      · rw [if_neg hc1]
        by_cases hc2 : s.registrationRequestId = some resp.id ∧ regDoneOf resp = true
        · rw [if_pos hc2]
          by_cases htk : hd = Handler.sendResolver tok
          · exfalso
            subst htk
            have hid : resp.id = id := hinv.2.1 resp.id hh
            subst hid
            exact (hinv.2.2 hh).2 hc2.1
          · left
            exact handlerStep_inv saveOk id tok hd s _ resp hinv
              (fun i v hv => mapDel_subset _ _ _ _ hv) (fun i => rfl)
              (Or.inr rfl) (Nat.le_refl _) htk
        · rw [if_neg hc2]
          by_cases htk : hd = Handler.sendResolver tok
          · exfalso
            subst htk
            have hid : resp.id = id := hinv.2.1 resp.id hh
            subst hid
            obtain ⟨hsf, hrn⟩ := hinv.2.2 hh
            exact hc1 ⟨hsf, hrn⟩
          · left
            exact handlerStep_inv saveOk id tok hd s s resp hinv
              (fun i v hv => hv) (fun i => rfl) (Or.inl rfl)
              (Nat.le_refl _) htk

theorem runTrace_noTok (saveOk : Bool) (tok : Nat) :
    ∀ (tr : List MainEvent) (s : TVState), noTok tok s →
      resCount tok (runTrace saveOk s tr).2 = 0
      ∧ noTok tok (runTrace saveOk s tr).1 := by
  intro tr
  induction tr with
  | nil => exact fun s h => ⟨rfl, h⟩
  | cons e tr ih =>
    intro s h
    have h1 := runEvent_noTok saveOk tok s e h
    have h2 := ih (runEvent saveOk s e).1 h1.2
    unfold runTrace
    dsimp only
    rw [resCount_append, h1.1, h2.1]
    exact ⟨rfl, h2.2⟩

theorem runTrace_atMostOne (saveOk : Bool) (id : String) (tok : Nat) :
    ∀ (tr : List MainEvent) (s : TVState), sendInv id tok s →
      resCount tok (runTrace saveOk s tr).2 ≤ 1 := by
  intro tr
  induction tr with
  | nil =>
    intro s _
    exact Nat.zero_le 1
  | cons e tr ih =>
    intro s hinv
    unfold runTrace
    dsimp only
    rw [resCount_append]
    rcases runEvent_step saveOk id tok s e hinv with ⟨h0, hinv2⟩ | ⟨h1, hno⟩
    · rw [h0]
      simpa using ih _ hinv2
    · have h2 := (runTrace_noTok saveOk tok tr _ hno).1
      rw [h2]
      simpa using h1

/-- C2: `sendMain`'s per-request timeout is the fixed 10 seconds; over any
sequence of main-channel events the resolver of a `sendMain` request (ghost
token `tok`) is invoked at most once; if the request is still pending when
its timeout fires, the promise rejects with the timeout error and the
pending entry is removed, after which no later event can invoke its
resolver.  The last conjunct shows `sendMain` itself establishes the
invariant `sendInv` for the entry it creates (it fails without registering
anything when the socket is not open, hence the `OPEN` hypothesis). -/
theorem sendMain_timeout_correlator (saveOk : Bool) (s : TVState) (id : String)
    (tok : Nat) (hinv : sendInv id tok s) :
    SEND_TIMEOUT_MS = 10000
    ∧ (∀ tr, resCount tok (runTrace saveOk s tr).2 ≤ 1)
    ∧ (s.pendingRequests id = some (.sendResolver tok) →
        (runEvent saveOk s (.sendTimeout id tok)).2
          = [.rejectSend tok ("Request " ++ id ++ " timed out")]
        ∧ (runEvent saveOk s (.sendTimeout id tok)).1.pendingRequests id = none
        ∧ ∀ tr, resCount tok
            (runTrace saveOk (runEvent saveOk s (.sendTimeout id tok)).1 tr).2 = 0)
    ∧ (∀ s2 : TVState, s2.mainWs = some .OPEN → TokBound s2 →
        s2.subscriptionIds (mkMsgId (s2.msgId + 1)) = false →
        s2.registrationRequestId ≠ some (mkMsgId (s2.msgId + 1)) →
        (sendMain s2 none).2 = .ok (mkMsgId (s2.msgId + 1), s2.tokCounter + 1)
        ∧ sendInv (mkMsgId (s2.msgId + 1)) (s2.tokCounter + 1) (sendMain s2 none).1) := by
  refine ⟨rfl, fun tr => runTrace_atMostOne saveOk id tok tr s hinv, ?_, ?_⟩
  · intro hp
    have hps : (s.pendingRequests id).isSome = true := by
      rw [hp]
      rfl
    unfold runEvent
    dsimp only
    rw [if_pos hps]
    refine ⟨rfl, by simp [mapDel], ?_⟩
    intro tr
    refine (runTrace_noTok saveOk tok tr _ ?_).1
    refine ⟨hinv.1, ?_⟩
    intro i
    show mapDel s.pendingRequests id i ≠ some (.sendResolver tok)
    unfold mapDel
    by_cases hi : i = id
    · simp [hi]
    · rw [if_neg hi]
      intro hcon
      exact hi (hinv.2.1 i hcon)
  · intro s2 hws hb hsub hreg
    unfold sendMain
    rw [if_neg (by rw [hws]; simp)]
    dsimp only
    refine ⟨rfl, Nat.le_refl _, ?_, ?_⟩
    · intro i hp
      dsimp only at hp
      unfold mapSet at hp
      by_cases hi : i = mkMsgId (s2.msgId + 1)
      · exact hi
      · rw [if_neg hi] at hp
        exact absurd (hb i _ hp) (by omega)
    · intro _
      exact ⟨hsub, hreg⟩

/-- A state with one outstanding `sendMain` request `msg_7` (token 1). -/
def c2State : TVState :=
  { initState with
    mainWs := some .OPEN
    pendingRequests := fun i => if i = "msg_7" then some (.sendResolver 1) else none
    msgId := 7
    tokCounter := 1 }

/-- Witness for `sendMain_timeout_correlator`: the timeout firing for the
pending `msg_7` rejects with the timeout error and removes the entry. -/
theorem sendMain_timeout_correlator_witness :
    (runEvent true c2State (.sendTimeout "msg_7" 1)).2
      = [.rejectSend 1 "Request msg_7 timed out"]
    ∧ (runEvent true c2State (.sendTimeout "msg_7" 1)).1.pendingRequests "msg_7"
      = none := by
  have hinv : sendInv "msg_7" 1 c2State := by
    refine ⟨by decide, ?_, ?_⟩
    · intro i hp
      by_cases hi : i = "msg_7"
      · exact hi
      · exfalso
        have hn : c2State.pendingRequests i = none := by
          simp [c2State, initState, hi]
        rw [hn] at hp
        cases hp
    · intro _
      exact ⟨rfl, by decide⟩
  have h := (sendMain_timeout_correlator true c2State "msg_7" 1 hinv).2.2.1
    (by decide)
  exact ⟨h.1.trans (by decide), h.2.1⟩
